import Mathlib

/-!
Verification of `json_to_csv.py` (Besedo/json-to-csv).

Shallow embedding of the program's data model and operations, followed by
theorems settling the specification claims.  Python runtime values that the
script manipulates (the results of `json.loads` and the values stored while
flattening) are modelled by `PyObj`; machine-level floats only ever arise
here as exact images of integers, so they are carried as rationals.
-/

/-- A Python runtime value as handled by the script: `None`, `bool`, `int`,
`float`, `str`, `list`, or `dict` (an insertion-ordered association list with
unique keys).  Note that in Python `bool` is a subclass of `int`, so the
source test `isinstance(v, int)` also accepts booleans; the embedding keeps
them as a separate constructor and replicates that test where it occurs. -/
inductive PyObj where
  | none : PyObj
  | bool (b : Bool) : PyObj
  | int (n : Int) : PyObj
  | float (q : Rat) : PyObj
  | str (s : String) : PyObj
  | list (xs : List PyObj) : PyObj
  | dict (kvs : List (String × PyObj)) : PyObj

/-- A Python `dict` with string keys, as an insertion-ordered association
list.  `json.loads` on a JSON object yields such a value. -/
abbrev PyDict := List (String × PyObj)

/-- One step of Python's `dict(items)` construction: binding a key that is
already present overwrites its value in place, a fresh key is appended. -/
def pyDictInsert (acc : PyDict) (k : String) (v : PyObj) : PyDict :=
  if acc.any (fun p => p.1 = k) then
    acc.map (fun p => if p.1 = k then (k, v) else p)
  else
    acc ++ [(k, v)]

/-- Python's `dict(items)` on a list of key/value pairs: first-occurrence
key order, last value wins. -/
def pyDict (items : PyDict) : PyDict :=
  items.foldl (fun acc kv => pyDictInsert acc kv.1 kv.2) []

/-- Insert a pair into a list sorted by key (helper for `sortByKey`). -/
def insertByKey (p : String × PyObj) : PyDict → PyDict
  | [] => [p]
  | q :: rest => if p.1 < q.1 then p :: q :: rest else q :: insertByKey p rest

/-- Python's `sorted(pairs, key=lambda tup: tup[0])`: stable sort of the
pairs by their key (insertion sort; the source's keys are unique, so any
stable by-key sort agrees with CPython's). -/
def sortByKey : PyDict → PyDict
  | [] => []
  | p :: rest => insertByKey p (sortByKey rest)

/-- Association-list lookup, Python's `r[c]` / key-membership on a dict. -/
def lookupAssoc (r : PyDict) (c : String) : Option PyObj :=
  match r with
  | [] => Option.none
  | p :: rest => if p.1 = c then some p.2 else lookupAssoc rest c

mutual

/-- The body of `_flatten` (json_to_csv.py lines 67-100): the `items` list
accumulated over `d.items()`.  For each key `k` with value `v`:
a list value becomes a single pair whose value is the processed element
list (`flatten_elems`); a dict value is flattened recursively under the
extended key and its items are spliced in; an int (or, via Python's
`isinstance(v, int)`, a bool) is cast with `float(v)` when `int_to_float`
is set; `None` is skipped (the `v is not None` guard on line 98); any
other scalar is stored verbatim. -/
def flatten_pairs (d : PyDict) (parent_key sep : String)
    (int_to_float remove_null flatten_list : Bool) : PyDict :=
  match d with
  | [] => []
  | (k, v) :: rest =>
    let new_key := if parent_key = "" then k else parent_key ++ sep ++ k
    (match v with
     | .list xs =>
        [(new_key, .list (flatten_elems xs sep int_to_float remove_null flatten_list))]
     | .dict kvs =>
        _flatten kvs new_key sep int_to_float remove_null flatten_list
     | .int n =>
        if int_to_float then [(new_key, .float (n : Rat))] else [(new_key, .int n)]
     | .bool b =>
        if int_to_float then [(new_key, .float (if b then 1 else 0))] else [(new_key, .bool b)]
     | .none => []
     | .float q => [(new_key, .float q)]
     | .str s => [(new_key, .str s)])
    ++ flatten_pairs rest parent_key sep int_to_float remove_null flatten_list

/-- The element loop of `_flatten` for a list value (lines 72-89): a dict
element is flattened (with an empty parent key), sorted alphabetically and
re-wrapped as a dict; a string or any other non-`None` element (including a
nested list, which is kept raw) is appended as-is; a `None` element becomes
the literal string `'null'` unless `remove_null` is set, in which case it is
omitted. -/
def flatten_elems (xs : List PyObj) (sep : String)
    (int_to_float remove_null flatten_list : Bool) : List PyObj :=
  match xs with
  | [] => []
  | w :: rest =>
    (match w with
     | .dict kvs =>
        [PyObj.dict (pyDict (sortByKey (_flatten kvs "" sep int_to_float remove_null flatten_list)))]
     | .str s => [PyObj.str s]
     | .none => if remove_null then [] else [PyObj.str "null"]
     | other => [other])
    ++ flatten_elems rest sep int_to_float remove_null flatten_list

/-- `_flatten` (lines 53-100): flatten a nested dict into a one-level dict.
The parameter `flatten_list` is accepted and passed along to every recursive
call, exactly as in the source, where it is never otherwise read. -/
def _flatten (d : PyDict) (parent_key sep : String)
    (int_to_float remove_null flatten_list : Bool) : PyDict :=
  pyDict (flatten_pairs d parent_key sep int_to_float remove_null flatten_list)

end

/-- `_transform_jsons` (lines 103-118): flatten every record of a batch. -/
def _transform_jsons (json_list : List PyDict) (sep : String)
    (int_to_float remove_null flatten_list : Bool) : List PyDict :=
  json_list.map (fun j => _flatten j "" sep int_to_float remove_null flatten_list)

mutual

/-- Modelled from the claim of C10: the input transformation it quantifies
over, replacing a null array element by the JSON string literal `"null"`.
Object values are transformed recursively. -/
def replaceNullsVal : PyObj → PyObj
  | .dict kvs => .dict (replaceNullsDict kvs)
  | .list xs => .list (replaceNullsElems xs)
  | other => other

/-- Modelled from the claim of C10: transformation of an object, replacing
null array elements by the string `"null"` in each value. -/
def replaceNullsDict : List (String × PyObj) → List (String × PyObj)
  | [] => []
  | (k, v) :: rest => (k, replaceNullsVal v) :: replaceNullsDict rest

/-- Modelled from the claim of C10: transformation of an array's element
list, replacing each null element by the string `"null"` and recursing into
object elements. -/
def replaceNullsElems : List PyObj → List PyObj
  | [] => []
  | .none :: rest => .str "null" :: replaceNullsElems rest
  | .dict kvs :: rest => .dict (replaceNullsDict kvs) :: replaceNullsElems rest
  | w :: rest => w :: replaceNullsElems rest

end

/-- State of the character loop of `read_jsons_chunks` (lines 197-264):
brace depth `nb_bracket`, quote count `nb_quotes`, run length of preceding
backslashes `count_escape_char`, the accumulator `example` (called
`exampleBuf` here because `example` is a Lean keyword), the pending parsed
values `data`, and the emitted-value counter `i`.  `J` is the result type of
the `json.loads` oracle. -/
structure TokState (J : Type) where
  nb_bracket : Int
  nb_quotes : Nat
  count_escape_char : Nat
  exampleBuf : String
  data : List J
  i : Nat
deriving DecidableEq

/-- The initial tokenizer state (lines 204-208). -/
def initTokState (J : Type) : TokState J :=
  { nb_bracket := 0, nb_quotes := 0, count_escape_char := 0, exampleBuf := "", data := [], i := 0 }

/-- Observable outcome of running the `read_jsons_chunks` generator to
completion on a whole input: the batches it yielded, the error message if a
`json.loads` call raised (aborting the generator), the parsed values still
pending in `data` when it stopped, the leftover accumulator text, and
whether it stopped via the closing-bracket `return` (line 248) rather than
by falling off the end of the input. -/
structure TokResult (J : Type) where
  batches : List (List J)
  parseError : Option String
  finalData : List J
  leftover : String
  endedByBracket : Bool
deriving DecidableEq

/-- The tail of the loop body shared by every character that was not
consumed by a `continue` (lines 244-254): the closing-bracket check that
yields the pending batch and returns, then the backslash-run update, then
appending the character to the accumulator.  Returns the next state, the
batches yielded on this step, and whether the generator returned. -/
def tokTail {J : Type} (st : TokState J) (c : Char) : TokState J × List (List J) × Bool :=
  if c = ']' ∧ st.nb_bracket = 0 ∧ st.nb_quotes % 2 = 0 ∧ (st.exampleBuf = "" ∨ st.exampleBuf = "]") then
    (st, [st.data], true)
  else
    let st1 := if c = '\\' then { st with count_escape_char := st.count_escape_char + 1 }
               else { st with count_escape_char := 0 }
    ({ st1 with exampleBuf := st1.exampleBuf.push c }, [], false)

/-- One character of the `read_jsons_chunks` loop body (lines 211-254), a
direct transcription of the if/elif chain: an unescaped quote bumps the
quote count; an unescaped brace outside a string adjusts the depth, and a
closing brace that reaches depth zero completes one value, which is parsed
with `loads` (a raised parse error aborts the whole generator) and counted,
yielding the batch every `chunk_size` values; a separator at depth zero is
skipped; everything else runs the shared tail. -/
def tokStep {J : Type} (loads : String → Except String J) (chunk_size : Nat)
    (st : TokState J) (c : Char) : Except String (TokState J × List (List J) × Bool) :=
  if c = '"' then
    let st1 := if st.count_escape_char % 2 = 0 then { st with nb_quotes := st.nb_quotes + 1 } else st
    .ok (tokTail st1 c)
  else if c = '\x7b' ∧ st.nb_quotes % 2 = 0 then
    let st1 := if st.count_escape_char % 2 = 0 then { st with nb_bracket := st.nb_bracket + 1 } else st
    .ok (tokTail st1 c)
  else if c = '\x7d' ∧ st.nb_quotes % 2 = 0 then
    let st1 := if st.count_escape_char % 2 = 0 then { st with nb_bracket := st.nb_bracket - 1 } else st
    if st1.nb_bracket = 0 ∧ st1.nb_quotes % 2 = 0 then
      let ex := st1.exampleBuf.push c
      match loads ex with
      | .error e => .error e
      | .ok jv =>
        let st2 := { st1 with data := st1.data ++ [jv], i := st1.i + 1, exampleBuf := "" }
        if st2.i % chunk_size = 0 then .ok ({ st2 with data := [] }, [st2.data], false)
        else .ok (st2, [], false)
    else .ok (tokTail st1 c)
  else if (c = '[' ∨ c = ',' ∨ c = '\n') ∧ st.nb_bracket = 0 ∧ st.nb_quotes % 2 = 0 then
    .ok (st, [], false)
  else
    .ok (tokTail st c)

/-- Run the tokenizer over the remaining input characters, collecting the
yielded batches.  Reaching the end of the input models the generator's
`break` on line 264: the loop simply stops, with `data` and `example` left
as they are (nothing further is yielded and no error is reported).  The
source's 1 MB chunked reads always resume from the exact same state, so the
run over the concatenated character stream is the faithful model. -/
def tokRun {J : Type} (loads : String → Except String J) (chunk_size : Nat) :
    TokState J → List (List J) → List Char → TokResult J
  | st, ys, [] =>
    { batches := ys, parseError := Option.none, finalData := st.data,
      leftover := st.exampleBuf, endedByBracket := false }
  | st, ys, c :: rest =>
    match tokStep loads chunk_size st c with
    | .error e =>
      { batches := ys, parseError := some e, finalData := st.data,
        leftover := st.exampleBuf, endedByBracket := false }
    | .ok (st1, out, ret) =>
      if ret then
        { batches := ys ++ out, parseError := Option.none, finalData := st1.data,
          leftover := st1.exampleBuf, endedByBracket := true }
      else tokRun loads chunk_size st1 (ys ++ out) rest

/-- `read_jsons_chunks` (lines 197-264) on a whole input string, with
`loads` standing for the external `json.loads`.  On a completely empty file
the source raises a `NameError` (the loop variable `k` is used before any
character was seen); any other input is processed character by character as
in `tokRun`. -/
def read_jsons_chunks {J : Type} (loads : String → Except String J) (chunk_size : Nat)
    (input : String) : Except String (TokResult J) :=
  if input = "" then .error "NameError"
  else .ok (tokRun loads chunk_size (initTokState J) [] input.toList)

/-- Python's `list(set(xs))` for strings, modelled as first-occurrence
deduplication.  CPython's set iteration order is unspecified; every use in
the source is sorted before it matters, so only the underlying set counts. -/
def dedupFirst (xs : List String) : List String :=
  xs.foldl (fun acc x => if acc.contains x then acc else acc ++ [x]) []

/-- `update_columns_list` (lines 173-194): flatten the batch, gather every
key of every flattened record, and take the union with the columns found so
far. -/
def update_columns_list (columns_list : List String) (json_list : List PyDict)
    (sep : String) (int_to_float remove_null flatten_list : Bool) : List String :=
  let data := _transform_jsons json_list sep int_to_float remove_null flatten_list
  let cols := data.foldl (fun acc js => acc ++ js.map Prod.fst) []
  dedupFirst (columns_list ++ cols)

/-- The batch-consuming loop of `get_columns` in its `is_json` branch
(lines 290-304): fold over the yielded batches with the running column
list, the pending `json_list` and the counter `j`, flushing `json_list`
into `update_columns_list` at the head of an iteration whenever `j` is a
nonzero multiple of the chunk size, then extending with the batch and
adding `chunk_size` to `j`; afterwards the per-file flush of lines 320-322. -/
def get_columns_consume (sep : String) (int_to_float remove_null flatten_list : Bool)
    (chunk_size : Nat) (batches : List (List PyDict)) : List String :=
  let fin := batches.foldl
    (fun (st : List String × List PyDict × Nat) x =>
      let upd := if st.2.2 ≠ 0 ∧ st.2.2 % chunk_size = 0 then
          (update_columns_list st.1 st.2.1 sep int_to_float remove_null flatten_list, ([] : List PyDict))
        else (st.1, st.2.1)
      (upd.1, upd.2 ++ x, st.2.2 + chunk_size))
    ([], [], 0)
  if fin.2.1.length > 0 then
    update_columns_list fin.1 fin.2.1 sep int_to_float remove_null flatten_list
  else fin.1

/-- `get_columns` (lines 267-326) restricted to a single `is_json` input
file.  The `for x in read_jsons_chunks(f, ...)` statement drives the
generator, so an exception raised by `json.loads` inside it propagates out
of `get_columns`: the `try` on line 298 guards only `json_list.extend(x)`,
which never raises for a list.  A generator that aborted with a parse error
therefore aborts `get_columns` with the same error. -/
def get_columns_is_json_file (loads : String → Except String PyDict)
    (sep : String) (int_to_float remove_null flatten_list : Bool)
    (input : String) : Except String (List String) :=
  match read_jsons_chunks loads 50000 input with
  | .error e => .error e
  | .ok r =>
    match r.parseError with
    | some e => .error e
    | Option.none =>
      .ok (get_columns_consume sep int_to_float remove_null flatten_list 50000 r.batches)

/-- Insert a string into a sorted list (helper for `sortStrings`). -/
def insertString (x : String) : List String → List String
  | [] => [x]
  | y :: rest => if x < y then x :: y :: rest else y :: insertString x rest

/-- Python's `list.sort()` / `sorted` on strings (lexicographic by code
point), as an insertion sort. -/
def sortStrings : List String → List String
  | [] => []
  | x :: rest => insertString x (sortStrings rest)

/-- The column list of `pd.DataFrame(data)` built from a list of flattened
records: every key of every record, in first-seen order. -/
def dfColumns (data : List PyDict) : List String :=
  data.foldl (fun acc r => r.foldl (fun a kv => if a.contains kv.1 then a else a ++ [kv.1]) acc) []

/-- One cell of the frame written by `update_csv` for record `r` at column
`c`: the columns added on lines 162-163 (those absent from every record of
the batch) hold the empty-string filler, any other requested column holds
the record's value when the key is present and NaN (`Option.none`)
otherwise.  NaN and the empty string both render as an empty field under
`to_csv`. -/
def dfCell (missing : List String) (r : PyDict) (c : String) : Option PyObj :=
  if missing.contains c then some (PyObj.str "") else lookupAssoc r c

/-- The row that `update_csv` writes for one flattened record: the cells of
the frozen columns, in order, after the missing-column fill. -/
def update_csv_rowOf (columns missing : List String) (r : PyDict) : List (Option PyObj) :=
  columns.map (dfCell missing r)

/-- `update_csv` (lines 143-170): flatten the batch, add as empty columns
the frozen columns that no record of the batch produced, and select exactly
the frozen columns in order (`df = df[columns]`, which raises a `KeyError`
only if a requested column is still absent, and silently ignores any extra
columns the records produced).  Returns the data rows appended to the CSV,
one per record, in order. -/
def update_csv (json_list : List PyDict) (columns : List String) (sep : String)
    (int_to_float remove_null flatten_list : Bool) :
    Except String (List (List (Option PyObj))) :=
  let data := _transform_jsons json_list sep int_to_float remove_null flatten_list
  let current_columns := dfColumns data
  let missing_columns := columns.filter (fun c => !current_columns.contains c)
  if columns.all (fun c => current_columns.contains c || missing_columns.contains c) then
    .ok (data.map (update_csv_rowOf columns missing_columns))
  else
    .error "KeyError"

/-- The line loop of `get_dataframe` for one file in the newline-delimited
branch with `columns=None` (full-memory mode, lines 371-386): each line is
parsed with `json.loads`; a parse failure is caught, logged and skipped;
the flush on lines 374-378 is guarded by `if columns:` and so does nothing
in this mode.  A line is modelled by the outcome of `json.loads` on it. -/
def parse_ljson_file (lines : List (Except String PyDict)) : List PyDict :=
  lines.foldl (fun acc l => match l with | .ok d => acc ++ [d] | .error _ => acc) []

/-- `get_dataframe` (lines 329-409) in full-memory mode (`columns=None`) on
newline-delimited input files: `json_list` is re-initialised at the top of
the loop over files (line 351) and the DataFrame is only built after that
loop (lines 397-407), so it holds the records of the last file alone.  The
result is the sorted column list of that frame together with its rows
(cells are `Option.none` where a record lacks a key, pandas NaN). -/
def get_dataframe_fullmem (files : List (List (Except String PyDict))) (sep : String)
    (int_to_float remove_null flatten_list : Bool) :
    List String × List (List (Option PyObj)) :=
  let json_list := files.foldl (fun _ f => parse_ljson_file f) []
  let data := _transform_jsons json_list sep int_to_float remove_null flatten_list
  let cols := sortStrings (dfColumns data)
  (cols, data.map (fun r => cols.map (fun c => lookupAssoc r c)))

/-- A Python positional call: the callee runs only when the number of
supplied arguments matches the number of required parameters; otherwise the
interpreter raises a `TypeError` before the body is entered. -/
def pyCallArity {α : Type} (declaredParams suppliedArgs : Nat) (err : String)
    (result : α) : Except String α :=
  if suppliedArgs = declaredParams then .ok result else .error err

/-- Number of parameters of `get_columns` (line 267), all positional and
without defaults: `list_data_paths`, `sep`, `logger`, `int_to_float`,
`remove_null`, `is_json`, `flatten_list`. -/
def get_columns_paramCount : Nat := 7

/-- Number of arguments that `main` passes to `get_columns` on line 436:
`data`, `opt.sep`, `logger`, `opt.int_to_float`, `opt.remove_null`,
`opt.is_json` — the `flatten_list` argument is missing. -/
def main_get_columns_argCount : Nat := 6

/-- Number of parameters of `update_csv` (line 143), all positional and
without defaults. -/
def update_csv_paramCount : Nat := 7

/-- Number of arguments passed to `update_csv` at each of its call sites in
`get_dataframe` (lines 360, 377, 394): `path_csv`, `json_list`, `columns`,
`sep`, `int_to_float`, `remove_null` — the `flatten_list` argument is
missing. -/
def get_dataframe_update_csv_argCount : Nat := 6

/-- One line of the `get_columns` loop for newline-delimited input (lines
308-318), acting on the state of running column list, pending `json_list`
and line counter `j`: the counter is bumped, a flush into
`update_columns_list` happens at the head of the iteration whenever `j` is
a multiple of 50000, then the line's `json.loads` outcome is appended (a
parse failure is caught, logged and skipped). -/
def get_columns_ljson_line (sep : String) (int_to_float remove_null flatten_list : Bool)
    (st : List String × List PyDict × Nat) (line : Except String PyDict) :
    List String × List PyDict × Nat :=
  let j := st.2.2 + 1
  let upd := if j % 50000 = 0 then
      (update_columns_list st.1 st.2.1 sep int_to_float remove_null flatten_list, ([] : List PyDict))
    else (st.1, st.2.1)
  match line with
  | .ok d => (upd.1, upd.2 ++ [d], j)
  | .error _ => (upd.1, upd.2, j)

/-- `get_columns` (lines 267-326) on newline-delimited files: per file the
pending `json_list` is reset and the lines are folded with
`get_columns_ljson_line` (the counter `j` runs across files), then the
leftovers are flushed when non-empty (lines 320-322).  Each input line is
modelled by the outcome of `json.loads` on it. -/
def get_columns_ljson (files : List (List (Except String PyDict))) (sep : String)
    (int_to_float remove_null flatten_list : Bool) : List String :=
  let fin := files.foldl
    (fun (st : List String × List PyDict × Nat) f =>
      let st1 := f.foldl (get_columns_ljson_line sep int_to_float remove_null flatten_list)
        (st.1, [], st.2.2)
      if st1.2.1.length > 0 then
        (update_columns_list st1.1 st1.2.1 sep int_to_float remove_null flatten_list, st1.2.1, st1.2.2)
      else st1)
    ([], [], 0)
  fin.1

/-- `main` (lines 412-453) with `opt.streaming` set, on newline-delimited
files: its first act in streaming mode is the line-436 call of
`get_columns` with six of the seven required positional arguments, modelled
by the arity-checked call; the would-be column list (the behaviour of
`get_columns` had the call been well-formed) is the checked call's result,
sorted on line 438 before the header is written. -/
def main_streaming (files : List (List (Except String PyDict))) (sep : String)
    (int_to_float remove_null flatten_list : Bool) : Except String (List String) := do
  let columns_list ← pyCallArity get_columns_paramCount main_get_columns_argCount
    "TypeError: get_columns() missing 1 required positional argument: flatten_list"
    (get_columns_ljson files sep int_to_float remove_null flatten_list)
  .ok (sortStrings columns_list)

/-- A `json.loads` oracle that returns the completed substring itself,
standing for a parse that succeeds on every completed value; used where
only the tokenizer's splitting behaviour is at stake. -/
def loadsRaw : String → Except String String := fun s => .ok s

/-- Modelled from the spec: the external `json.loads` on the three
top-level values of the C3 run — it parses the two well-formed objects and
raises on the malformed middle value. -/
def loadsC3 : String → Except String PyDict := fun s =>
  if s = "\x7b\"a\":1\x7d" then .ok [("a", PyObj.int 1)]
  else if s = "\x7b\"c\":3\x7d" then .ok [("c", PyObj.int 3)]
  else .error ("json.loads: Expecting value in " ++ s)

theorem lookupAssoc_eq_none (e : PyDict) (c : String) (h : ∀ p ∈ e, p.1 ≠ c) :
    lookupAssoc e c = Option.none := by
  induction e with
  | nil => rfl
  | cons p rest ih =>
      have hp : p.1 ≠ c := h p (List.mem_cons_self p rest)
      simp only [lookupAssoc, if_neg hp]
      exact ih (fun q hq => h q (List.mem_cons_of_mem p hq))

theorem lookupAssoc_append_right_irrelevant (d e : PyDict) (c : String)
    (h : ∀ p ∈ e, p.1 ≠ c) : lookupAssoc (d ++ e) c = lookupAssoc d c := by
  induction d with
  | nil => simpa using lookupAssoc_eq_none e c h
  | cons p rest ih =>
      by_cases hp : p.1 = c
      · simp [lookupAssoc, hp]
      · simp only [List.cons_append, lookupAssoc, if_neg hp]
        exact ih

theorem flatten_flag_indep :
    ∀ (d : PyDict) (pk sep : String) (itf rn fl fl' : Bool),
      _flatten d pk sep itf rn fl = _flatten d pk sep itf rn fl' := by
  intro d pk sep itf rn fl fl'
  refine _flatten.induct
      (fun d pk sep itf rn fl =>
        ∀ b, flatten_pairs d pk sep itf rn fl = flatten_pairs d pk sep itf rn b)
      (fun d pk sep itf rn fl =>
        ∀ b, _flatten d pk sep itf rn fl = _flatten d pk sep itf rn b)
      (fun xs sep itf rn fl =>
        ∀ b, flatten_elems xs sep itf rn fl = flatten_elems xs sep itf rn b)
      ?_ ?_ ?_ ?_ ?_ d pk sep itf rn fl fl'
  · intro pk sep itf rn fl b
    simp [flatten_pairs]
  · intro pk sep itf rn fl k v rest nk hv ih b
    cases v with
    | list xs => simp only [flatten_pairs]; rw [hv b, ih b]
    | dict kvs =>
        simp only [flatten_pairs]
        exact congrArg₂ (fun x y => x ++ y) (hv b) (ih b)
    | none => simp only [flatten_pairs]; rw [ih b]
    | bool bb => simp only [flatten_pairs]; rw [ih b]
    | int n => simp only [flatten_pairs]; rw [ih b]
    | float q => simp only [flatten_pairs]; rw [ih b]
    | str s => simp only [flatten_pairs]; rw [ih b]
  · intro d pk sep itf rn fl h1 b
    simp only [_flatten]
    rw [h1 b]
  · intro sep itf rn fl b
    simp [flatten_elems]
  · intro sep itf rn fl w rest hw ih b
    cases w with
    | dict kvs => simp only [flatten_elems]; rw [hw b, ih b]
    | none => simp only [flatten_elems]; rw [ih b]
    | bool bb => simp only [flatten_elems]; rw [ih b]
    | int n => simp only [flatten_elems]; rw [ih b]
    | float q => simp only [flatten_elems]; rw [ih b]
    | str s => simp only [flatten_elems]; rw [ih b]
    | list xs => simp only [flatten_elems]; rw [ih b]

theorem flatten_replaceNulls_aux :
    ∀ (d : PyDict) (pk sep : String) (itf rn fl : Bool), rn = false →
      _flatten d pk sep itf rn fl = _flatten (replaceNullsDict d) pk sep itf rn fl := by
  intro d pk sep itf rn fl
  refine _flatten.induct
      (fun d pk sep itf rn fl => rn = false →
        flatten_pairs d pk sep itf rn fl = flatten_pairs (replaceNullsDict d) pk sep itf rn fl)
      (fun d pk sep itf rn fl => rn = false →
        _flatten d pk sep itf rn fl = _flatten (replaceNullsDict d) pk sep itf rn fl)
      (fun xs sep itf rn fl => rn = false →
        flatten_elems xs sep itf rn fl = flatten_elems (replaceNullsElems xs) sep itf rn fl)
      ?_ ?_ ?_ ?_ ?_ d pk sep itf rn fl
  · intro pk sep itf rn fl _
    simp [flatten_pairs, replaceNullsDict]
  · intro pk sep itf rn fl k v rest nk hv ih hrn
    cases v with
    | list xs =>
        simp only [replaceNullsDict, replaceNullsVal, flatten_pairs]
        rw [hv hrn, ih hrn]
    | dict kvs =>
        simp only [replaceNullsDict, replaceNullsVal, flatten_pairs]
        exact congrArg₂ (fun x y => x ++ y) (hv hrn) (ih hrn)
    | none =>
        simp only [replaceNullsDict, replaceNullsVal, flatten_pairs]
        rw [ih hrn]
    | bool bb =>
        simp only [replaceNullsDict, replaceNullsVal, flatten_pairs]
        rw [ih hrn]
    | int n =>
        simp only [replaceNullsDict, replaceNullsVal, flatten_pairs]
        rw [ih hrn]
    | float q =>
        simp only [replaceNullsDict, replaceNullsVal, flatten_pairs]
        rw [ih hrn]
    | str s =>
        simp only [replaceNullsDict, replaceNullsVal, flatten_pairs]
        rw [ih hrn]
  · intro d pk sep itf rn fl h1 hrn
    simp only [_flatten]
    rw [h1 hrn]
  · intro sep itf rn fl _
    simp [flatten_elems, replaceNullsElems]
  · intro sep itf rn fl w rest hw ih hrn
    subst hrn
    cases w with
    | dict kvs =>
        simp only [replaceNullsElems, flatten_elems]
        rw [hw rfl, ih rfl]
    | none =>
        simp only [replaceNullsElems, flatten_elems, Bool.false_eq_true, if_false]
        rw [ih rfl]
    | bool bb =>
        simp only [replaceNullsElems, flatten_elems]
        rw [ih rfl]
    | int n =>
        simp only [replaceNullsElems, flatten_elems]
        rw [ih rfl]
    | float q =>
        simp only [replaceNullsElems, flatten_elems]
        rw [ih rfl]
    | str s =>
        simp only [replaceNullsElems, flatten_elems]
        rw [ih rfl]
    | list xs =>
        simp only [replaceNullsElems, flatten_elems]
        rw [ih rfl]

theorem update_csv_guard_holds (columns current : List String) :
    columns.all (fun c => current.contains c
      || (columns.filter (fun c => !current.contains c)).contains c) = true := by
  rw [List.all_eq_true]
  intro c hc
  rw [Bool.or_eq_true]
  by_cases h : current.contains c = true
  · exact Or.inl h
  · refine Or.inr ?_
    have hmem : c ∈ List.filter (fun c => !current.contains c) columns := by
      rw [List.mem_filter]
      exact ⟨hc, by simpa using h⟩
    simpa using hmem

/-- Claim C1 (code bug): for every input and configuration, streaming mode
aborts before producing any data.  `main` calls `get_columns` on line 436
with six positional arguments while `get_columns` (line 267) requires
seven, so the interpreter raises a `TypeError` at the very first step of
streaming mode; likewise each `update_csv` call in `get_dataframe` (lines
360, 377, 394) supplies six of the seven required arguments, so even the
write pass of streaming mode could never run.  Hence streaming mode cannot
produce the same output as full-memory mode, which does produce output. -/
theorem main_streaming_always_raises_TypeError :
    ∀ (files : List (List (Except String PyDict))) (sep : String)
      (int_to_float remove_null flatten_list : Bool),
      main_streaming files sep int_to_float remove_null flatten_list =
        .error "TypeError: get_columns() missing 1 required positional argument: flatten_list"
    ∧ ∀ (rows : List PyDict),
        pyCallArity update_csv_paramCount get_dataframe_update_csv_argCount
          "TypeError: update_csv() missing 1 required positional argument: flatten_list" rows =
        .error "TypeError: update_csv() missing 1 required positional argument: flatten_list" := by
  intro files sep itf rn fl
  constructor
  · simp [main_streaming, pyCallArity, get_columns_paramCount, main_get_columns_argCount,
          Bind.bind, Except.bind]
  · intro rows
    simp [pyCallArity, update_csv_paramCount, get_dataframe_update_csv_argCount]

/-- Claim C2 (code bug): in full-memory mode with more than one input
file, the output does not contain one row per parsed record.  On two files
holding the single records mapping key a to 1 and key b to 2 respectively,
the produced frame has a single row — the second file's — because
`get_dataframe` resets `json_list` at the top of the per-file loop (line
351) and only builds the DataFrame after the loop (lines 397-407). -/
theorem get_dataframe_fullmem_keeps_only_last_file :
    get_dataframe_fullmem [[.ok [("a", PyObj.int 1)]], [.ok [("b", PyObj.int 2)]]]
        "." false false false
      = (["b"], [[some (PyObj.int 2)]]) := by
  simp [get_dataframe_fullmem, parse_ljson_file, _transform_jsons, _flatten, flatten_pairs,
        pyDict, pyDictInsert, dfColumns, sortStrings, insertString, lookupAssoc]

/-- Claim C3 (code bug): in `is_json` mode a malformed value aborts the
whole run instead of being skipped.  On the stream holding the three
comma-separated values with keys a, b (malformed) and c, the `json.loads`
call inside the `read_jsons_chunks` generator raises on the middle value;
the exception surfaces at the `for` statement of `get_columns`, outside
the `try` that guards only `json_list.extend(x)` (lines 298-304), so
`get_columns` terminates with the parse error and the value with key c is
never processed. -/
theorem get_columns_is_json_aborts_on_malformed_value :
    get_columns_is_json_file loadsC3 "." false false false
        "\x7b\"a\":1\x7d,\x7b\"b\":\x7d,\x7b\"c\":3\x7d"
      = .error ("json.loads: Expecting value in \x7b\"b\":\x7d") := by
  rfl

/-- Claim C4 counterexample: flattening the object that maps key a to null
with dropNulls=false yields the empty record — key a is absent, not mapped
to the null marker as the claim states. -/
theorem flatten_direct_null_dropped_counterexample :
    _flatten [("a", PyObj.none)] "" "." false false false = [] := by
  simp [_flatten, flatten_pairs, pyDict]

/-- Claim C4 (corrected): a key whose value is null directly (not inside
an array) is omitted from the flattened record for BOTH settings of
dropNulls — the guard on line 98 of `_flatten` skips `None` values
unconditionally, and the `remove_null` flag only governs null elements
inside arrays. -/
theorem flatten_direct_null_always_omitted :
    ∀ (k : String) (rest : PyDict) (pk sep : String)
      (int_to_float remove_null flatten_list : Bool),
      _flatten ((k, PyObj.none) :: rest) pk sep int_to_float remove_null flatten_list
        = _flatten rest pk sep int_to_float remove_null flatten_list := by
  intro k rest pk sep itf rn fl
  simp [_flatten, flatten_pairs]

/-- Claim C5 (code bug): reaching the end of the input without a closing
array bracket neither emits the pending complete values nor reports the
pending fragment.  First conjunct: on the input consisting of exactly one
complete object (key a mapped to 1) and no trailing bracket, the generator
yields no batch at all, although one complete value was recognized and
parsed (it sits, discarded, in `data`).  Second conjunct: on the
unterminated fragment input (the object opener with key a and a colon),
the generator ends with the fragment still in the accumulator and no error
of any kind.  The end-of-file check on line 244 compares the loop
character against the empty string, which never occurs when iterating a
Python string, so the generator just falls off the end (line 264). -/
theorem read_jsons_chunks_silently_discards_at_eof :
    (read_jsons_chunks loadsRaw 10000 "\x7b\"a\":1\x7d" =
      .ok { batches := [], parseError := Option.none,
            finalData := ["\x7b\"a\":1\x7d"], leftover := "", endedByBracket := false })
  ∧ (read_jsons_chunks loadsRaw 10000 "\x7b\"a\":" =
      .ok { batches := [], parseError := Option.none,
            finalData := [], leftover := "\x7b\"a\":", endedByBracket := false }) := by
  exact ⟨rfl, rfl⟩

/-- Claim C6 counterexample: writing the single record whose flattening
holds only the key z (absent from the frozen column list, which holds only
the column a) raises no error at all — `update_csv` returns the row with
the empty filler for column a, and the record's value 1 under key z is
silently dropped from the output. -/
theorem update_csv_extra_key_dropped_counterexample :
    update_csv [[("z", PyObj.int 1)]] ["a"] "." false false false
      = .ok [[some (PyObj.str "")]] := by
  simp [update_csv, _transform_jsons, _flatten, flatten_pairs, pyDict, pyDictInsert,
        dfColumns, update_csv_rowOf, dfCell, lookupAssoc]

/-- Claim C6 (corrected): during the write pass a key absent from the
frozen column list is silently ignored, never raised as an error.  First
conjunct: `update_csv` always succeeds — the selection `df = df[columns]`
on line 166 can only fail for a requested column that is absent, and those
were just added, so no error path exists for extra record keys.  Second
conjunct: the written row is unchanged when a record is extended with
bindings whose keys lie outside the frozen columns — their values are
dropped from the output. -/
theorem update_csv_total_and_ignores_extra_keys :
    (∀ (json_list : List PyDict) (columns : List String) (sep : String)
       (int_to_float remove_null flatten_list : Bool),
       ∃ rows, update_csv json_list columns sep int_to_float remove_null flatten_list = .ok rows)
  ∧ (∀ (columns missing : List String) (d extra : PyDict),
       (∀ p ∈ extra, p.1 ∉ columns) →
       update_csv_rowOf columns missing (d ++ extra) = update_csv_rowOf columns missing d) := by
  constructor
  · intro json_list columns sep itf rn fl
    simp only [update_csv]
    rw [if_pos (update_csv_guard_holds columns
      (dfColumns (_transform_jsons json_list sep itf rn fl)))]
    exact ⟨_, rfl⟩
  · intro columns missing d extra h
    unfold update_csv_rowOf
    refine List.map_congr_left ?_
    intro c hc
    unfold dfCell
    by_cases hm : c ∈ missing
    · simp [hm]
    · have hm2 : ¬(missing.contains c = true) := by simpa using hm
      rw [if_neg hm2, if_neg hm2]
      refine lookupAssoc_append_right_irrelevant d extra c ?_
      intro p hp hpc
      exact h p hp (hpc ▸ hc)

/-- Witness for C6's corrected theorem at a concrete input: the frozen
column list holding only a, a record holding a, and an extra binding under
key z outside the frozen columns. -/
theorem update_csv_ignores_extra_keys_witness :
    (∀ p ∈ [("z", PyObj.int 9)], p.1 ∉ ["a"])
  ∧ update_csv_rowOf ["a"] [] ([("a", PyObj.int 1)] ++ [("z", PyObj.int 9)])
      = update_csv_rowOf ["a"] [] [("a", PyObj.int 1)] :=
  ⟨by decide,
   update_csv_total_and_ignores_extra_keys.2 ["a"] [] [("a", PyObj.int 1)]
     [("z", PyObj.int 9)] (by decide)⟩

/-- Claim C7 (confirmed): on the input object whose key a maps to the
string containing a closing brace (x, closing brace, y) and whose key b
maps to 1, the tokenizer recognizes exactly one complete top-level value —
the whole input — with an empty accumulator left over: the closing brace
inside the string is read while the quote count is odd, so it does not
touch the depth counter and does not split the value early. -/
theorem tokenizer_one_object_despite_brace_in_string :
    read_jsons_chunks loadsRaw 10000 "\x7b\"a\": \"x\x7dy\", \"b\": 1\x7d" =
      .ok { batches := [], parseError := Option.none,
            finalData := ["\x7b\"a\": \"x\x7dy\", \"b\": 1\x7d"], leftover := "",
            endedByBracket := false } := by
  rfl

/-- Claim C8 counterexample: flattening the object mapping key a to the
boolean true with coerceIntegersToFloat=true stores the float 1.0, not the
boolean — Python's `isinstance(v, int)` on line 95 is true for booleans,
so `float(v)` is applied to them as well. -/
theorem flatten_bool_coerced_counterexample :
    _flatten [("a", PyObj.bool true)] "" "." true false false = [("a", PyObj.float 1)]
  ∧ PyObj.float 1 ≠ PyObj.bool true := by
  constructor
  · simp [_flatten, flatten_pairs, pyDict, pyDictInsert]
  · simp

/-- Claim C8 (corrected): a direct boolean value is stored verbatim only
when coerceIntegersToFloat is false; when the flag is set, booleans — being
Python ints — are coerced to the floats 1.0 and 0.0. -/
theorem flatten_bool_storage :
    ∀ (k pk sep : String) (remove_null flatten_list b : Bool),
      _flatten [(k, PyObj.bool b)] pk sep true remove_null flatten_list
          = [(if pk = "" then k else pk ++ sep ++ k, PyObj.float (if b then 1 else 0))]
    ∧ _flatten [(k, PyObj.bool b)] pk sep false remove_null flatten_list
          = [(if pk = "" then k else pk ++ sep ++ k, PyObj.bool b)] := by
  intro k pk sep rn fl b
  constructor <;> simp [_flatten, flatten_pairs, pyDict, pyDictInsert]

/-- Claim C9 (confirmed): the `flatten_list` flag has no effect on the
flattening result — `_flatten` receives it and passes it to every
recursive call but never reads it, so for every object and every setting
of the other options the outputs with the flag true and false coincide. -/
theorem flatten_list_flag_has_no_effect :
    ∀ (d : PyDict) (pk sep : String) (int_to_float remove_null : Bool),
      _flatten d pk sep int_to_float remove_null true
        = _flatten d pk sep int_to_float remove_null false :=
  fun d pk sep itf rn => flatten_flag_indep d pk sep itf rn true false

/-- Claim C10 counterexample: the equivalence fails for a null element of
a nested array.  Flattening the object mapping key a to the
array-of-an-array holding null differs from flattening the object where
that null array element was replaced by the string value null: the outer
element loop keeps a nested list raw (line 80-81 of the source), so the
inner null survives verbatim on the left while the right holds the string,
and the two flattened records are distinguishable. -/
theorem flatten_nested_array_null_counterexample :
    _flatten [("a", PyObj.list [PyObj.list [PyObj.none]])] "" "." false false false
      ≠ _flatten [("a", PyObj.list [PyObj.list [PyObj.str "null"]])] "" "." false false false := by
  simp [_flatten, flatten_pairs, flatten_elems, pyDict, pyDictInsert]

/-- Claim C10 (corrected): with dropNulls=false, a null that is a DIRECT
element of an array (an array appearing as an object value, at any
object-nesting depth) is represented as the literal string null, so
replacing such nulls by the JSON string null yields an identical flattened
record; the equivalence does not extend to nulls inside arrays nested
directly within arrays, which are kept verbatim. -/
theorem flatten_replace_direct_array_nulls_equiv :
    ∀ (d : PyDict) (pk sep : String) (int_to_float flatten_list : Bool),
      _flatten d pk sep int_to_float false flatten_list
        = _flatten (replaceNullsDict d) pk sep int_to_float false flatten_list :=
  fun d pk sep itf fl => flatten_replaceNulls_aux d pk sep itf false fl rfl
